import Mathlib

/-!
Verification of the stats-card generator (`generate-stats-card.go`).

The Go program fetches a user's GitHub statistics over GraphQL, retries with
exponential backoff, reduces the raw payload to a `StatsCard`, and renders an
SVG.  This file gives a shallow embedding of the pure core of that pipeline:

* the data model (`Config`, `StatsCard`, `GitHubResponse`);
* `encoding/json` decoding of the response body into `GitHubResponse`,
  modelled on an explicit JSON value type (`Json`); a body that is not
  syntactically valid JSON is represented as `none`;
* `fetchStats` (lines 164-245), starting from the HTTP response: the network
  round trip itself is abstracted as a `FetchInput` (either a transport-level
  failure or a delivered response with status, the two rate-limit headers and
  a body);
* `fetchStatsWithRetry` (lines 139-162): `backoff.Retry` around `fetchStats`
  with discrete time, abstract backoff delays and an explicit cancellation
  instant;
* `generateStatsCardSVG` (lines 247-334);
* `loadConfig` (lines 100-114) and the `main` control flow around it.

Machine integers (`int` in Go) are modelled as unbounded `Int`; none of the
verified properties depends on 64-bit wrap-around.
-/

set_option maxRecDepth 16384

namespace StatsCardGen

/-- `defaultUsername` constant (line 20). -/
def defaultUsername : String := "gangwgr"

/-- `defaultOutputDir` constant (line 21). -/
def defaultOutputDir : String := "output"

/-- `Config` struct (lines 24-30). -/
structure Config where
  Username : String
  Token : String
  OutputDir : String
  OutputFile : String
  Verbose : Bool
deriving DecidableEq, Repr

/-- `StatsCard` struct (lines 32-39). -/
structure StatsCard where
  TotalStars : Int
  TotalCommits : Int
  TotalPRs : Int
  TotalIssues : Int
  ContributedTo : Int
  TotalContributions : Int
deriving DecidableEq, Repr

/-- Nested `contributionCalendar` struct of `GitHubResponse` (lines 48-50). -/
structure ContributionCalendar where
  totalContributions : Int
deriving DecidableEq, Repr

/-- Nested `contributionsCollection` struct of `GitHubResponse` (lines 44-51). -/
structure ContributionsCollection where
  totalCommitContributions : Int
  totalIssueContributions : Int
  totalPullRequestContributions : Int
  contributionCalendar : ContributionCalendar
deriving DecidableEq, Repr

/-- Nested `repositoriesContributedTo` struct of `GitHubResponse` (lines 52-54). -/
structure RepositoriesContributedTo where
  totalCount : Int
deriving DecidableEq, Repr

/-- One element of `repositories.nodes` (lines 56-58). -/
structure RepoNode where
  stargazerCount : Int
deriving DecidableEq, Repr

/-- Nested `repositories` struct of `GitHubResponse` (lines 55-59). -/
structure Repositories where
  nodes : List RepoNode
deriving DecidableEq, Repr

/-- Nested `user` struct of `GitHubResponse` (lines 43-60). -/
structure UserData where
  contributionsCollection : ContributionsCollection
  repositoriesContributedTo : RepositoriesContributedTo
  repositories : Repositories
deriving DecidableEq, Repr

/-- Nested `data` struct of `GitHubResponse` (lines 42-61). -/
structure DataField where
  user : UserData
deriving DecidableEq, Repr

/-- One element of the top-level `errors` list (lines 62-65).
The Go field `Type` is rendered here as `type'`. -/
structure GraphQLErr where
  message : String
  type' : String
deriving DecidableEq, Repr

/-- `GitHubResponse` struct (lines 41-66). -/
structure GitHubResponse where
  data : DataField
  errors : List GraphQLErr
deriving DecidableEq, Repr

/-- Go zero value of `ContributionCalendar`. -/
def zeroContributionCalendar : ContributionCalendar := ⟨0⟩

/-- Go zero value of `ContributionsCollection`. -/
def zeroContributionsCollection : ContributionsCollection :=
  ⟨0, 0, 0, zeroContributionCalendar⟩

/-- Go zero value of `RepositoriesContributedTo`. -/
def zeroRepositoriesContributedTo : RepositoriesContributedTo := ⟨0⟩

/-- Go zero value of `RepoNode`. -/
def zeroRepoNode : RepoNode := ⟨0⟩

/-- Go zero value of `Repositories` (a `nil` slice reads as the empty list). -/
def zeroRepositories : Repositories := ⟨[]⟩

/-- Go zero value of `UserData`. -/
def zeroUserData : UserData :=
  ⟨zeroContributionsCollection, zeroRepositoriesContributedTo, zeroRepositories⟩

/-- Go zero value of `DataField`. -/
def zeroDataField : DataField := ⟨zeroUserData⟩

/-- Go zero value of `GitHubResponse`. -/
def zeroGitHubResponse : GitHubResponse := ⟨zeroDataField, []⟩

/-- The all-zero `StatsCard`. -/
def zeroStatsCard : StatsCard := ⟨0, 0, 0, 0, 0, 0⟩

/-! ## JSON values and `encoding/json` decoding of `GitHubResponse`

The response body handed to `json.Unmarshal` (line 223) is modelled as an
`Option Json`: `none` stands for a body that is not syntactically valid JSON,
`some j` for a body whose parsed value is `j`.  JSON numbers are modelled as
integers; the GitHub payloads decoded here carry only integral numbers. -/

/-- A parsed JSON value. -/
inductive Json where
  | null
  | bool (b : Bool)
  | num (n : Int)
  | str (s : String)
  | arr (elems : List Json)
  | obj (fields : List (String × Json))

/-- Key lookup among a JSON object's fields.  `encoding/json` lets a later
duplicate key overwrite an earlier one, hence last-wins. -/
def lookupField (kvs : List (String × Json)) (k : String) : Option Json :=
  kvs.foldl (fun acc kv => if kv.1 = k then some kv.2 else acc) none

/-- Decode an `int`-typed struct field.  An absent key or a JSON `null`
leaves the Go zero value in place; a non-number value is an unmarshal
error. -/
def decodeIntField : Option Json → Except String Int
  | none => .ok 0
  | some .null => .ok 0
  | some (.num n) => .ok n
  | some _ => .error "cannot unmarshal JSON value into Go value of type int"

/-- Decode a `string`-typed struct field, with the same absent/null
conventions as `decodeIntField`. -/
def decodeStringField : Option Json → Except String String
  | none => .ok ""
  | some .null => .ok ""
  | some (.str s) => .ok s
  | some _ => .error "cannot unmarshal JSON value into Go value of type string"

/-- Decode the `contributionCalendar` sub-object. -/
def decodeContributionCalendar : Option Json → Except String ContributionCalendar
  | none => .ok zeroContributionCalendar
  | some .null => .ok zeroContributionCalendar
  | some (.obj kvs) => do
      let t ← decodeIntField (lookupField kvs "totalContributions")
      .ok ⟨t⟩
  | some _ => .error "cannot unmarshal JSON value into contributionCalendar"

/-- Decode the `contributionsCollection` sub-object. -/
def decodeContributionsCollection :
    Option Json → Except String ContributionsCollection
  | none => .ok zeroContributionsCollection
  | some .null => .ok zeroContributionsCollection
  | some (.obj kvs) => do
      let commits ← decodeIntField (lookupField kvs "totalCommitContributions")
      let issues ← decodeIntField (lookupField kvs "totalIssueContributions")
      let prs ← decodeIntField (lookupField kvs "totalPullRequestContributions")
      let cal ← decodeContributionCalendar (lookupField kvs "contributionCalendar")
      .ok ⟨commits, issues, prs, cal⟩
  | some _ => .error "cannot unmarshal JSON value into contributionsCollection"

/-- Decode the `repositoriesContributedTo` sub-object. -/
def decodeRepositoriesContributedTo :
    Option Json → Except String RepositoriesContributedTo
  | none => .ok zeroRepositoriesContributedTo
  | some .null => .ok zeroRepositoriesContributedTo
  | some (.obj kvs) => do
      let n ← decodeIntField (lookupField kvs "totalCount")
      .ok ⟨n⟩
  | some _ => .error "cannot unmarshal JSON value into repositoriesContributedTo"

/-- Decode one element of `repositories.nodes`. -/
def decodeRepoNode : Json → Except String RepoNode
  | .null => .ok zeroRepoNode
  | .obj kvs => do
      let n ← decodeIntField (lookupField kvs "stargazerCount")
      .ok ⟨n⟩
  | _ => .error "cannot unmarshal JSON value into repository node"

/-- Decode the `nodes` slice field; an absent key or `null` reads as the
`nil` slice. -/
def decodeNodes : Option Json → Except String (List RepoNode)
  | none => .ok []
  | some .null => .ok []
  | some (.arr es) => es.mapM decodeRepoNode
  | some _ => .error "cannot unmarshal JSON value into repository node slice"

/-- Decode the `repositories` sub-object. -/
def decodeRepositories : Option Json → Except String Repositories
  | none => .ok zeroRepositories
  | some .null => .ok zeroRepositories
  | some (.obj kvs) => do
      let ns ← decodeNodes (lookupField kvs "nodes")
      .ok ⟨ns⟩
  | some _ => .error "cannot unmarshal JSON value into repositories"

/-- Decode the `user` sub-object. -/
def decodeUserData : Option Json → Except String UserData
  | none => .ok zeroUserData
  | some .null => .ok zeroUserData
  | some (.obj kvs) => do
      let cc ← decodeContributionsCollection (lookupField kvs "contributionsCollection")
      let rc ← decodeRepositoriesContributedTo (lookupField kvs "repositoriesContributedTo")
      let rp ← decodeRepositories (lookupField kvs "repositories")
      .ok ⟨cc, rc, rp⟩
  | some _ => .error "cannot unmarshal JSON value into user"

/-- Decode the `data` sub-object. -/
def decodeDataField : Option Json → Except String DataField
  | none => .ok zeroDataField
  | some .null => .ok zeroDataField
  | some (.obj kvs) => do
      let u ← decodeUserData (lookupField kvs "user")
      .ok ⟨u⟩
  | some _ => .error "cannot unmarshal JSON value into data"

/-- Decode one element of the top-level `errors` list. -/
def decodeGraphQLErr : Json → Except String GraphQLErr
  | .null => .ok ⟨"", ""⟩
  | .obj kvs => do
      let m ← decodeStringField (lookupField kvs "message")
      let t ← decodeStringField (lookupField kvs "type")
      .ok ⟨m, t⟩
  | _ => .error "cannot unmarshal JSON value into error entry"

/-- Decode the top-level `errors` field. -/
def decodeErrors : Option Json → Except String (List GraphQLErr)
  | none => .ok []
  | some .null => .ok []
  | some (.arr es) => es.mapM decodeGraphQLErr
  | some _ => .error "cannot unmarshal JSON value into error slice"

/-- Decode a parsed JSON value into `GitHubResponse` (unmarshalling a
top-level `null` is a no-op, leaving the zero struct). -/
def decodeGitHubResponse : Json → Except String GitHubResponse
  | .null => .ok zeroGitHubResponse
  | .obj kvs => do
      let d ← decodeDataField (lookupField kvs "data")
      let es ← decodeErrors (lookupField kvs "errors")
      .ok ⟨d, es⟩
  | _ => .error "cannot unmarshal JSON value into Go value of type GitHubResponse"

/-- `json.Unmarshal(respBody, &result)` (line 223): a syntactically invalid
body (`none`) is a syntax error, otherwise decode the parsed value. -/
def unmarshalGitHubResponse : Option Json → Except String GitHubResponse
  | none => .error "invalid character looking for beginning of value"
  | some j => decodeGitHubResponse j

/-! ## `fetchStats` -/

/-- What the HTTP round trip of `fetchStats` delivers (lines 201-210):
either a transport-level failure (`client.Do` error, or a failure while
reading the body), or a delivered response with its status code, the
`X-RateLimit-Remaining` and `X-RateLimit-Reset` headers (absent headers read
as `""`), the raw body text and the body's JSON parse. -/
inductive FetchInput where
  | transportFail (msg : String)
  | response (status : Nat) (rateLimitRemaining rateLimitReset : String)
      (rawBody : String) (parsedBody : Option Json)

/-- The errors `fetchStats` can return, one constructor per `return nil, ...`
site after the request is sent (lines 201-230). -/
inductive FetchError where
  | transport (msg : String)
  | httpStatus (code : Nat) (body : String)
  | rateLimit (resetTime : String)
  | unmarshal (msg : String)
  | graphql (errs : List GraphQLErr)
deriving DecidableEq, Repr

/-- The `totalStars` accumulation loop (lines 232-235). -/
def sumStars (nodes : List RepoNode) : Int :=
  nodes.foldl (fun totalStars repo => totalStars + repo.stargazerCount) 0

/-- The reduction of a decoded payload into a `StatsCard` (lines 232-244). -/
def aggregate (result : GitHubResponse) : StatsCard :=
  { TotalStars := sumStars result.data.user.repositories.nodes
    TotalCommits := result.data.user.contributionsCollection.totalCommitContributions
    TotalPRs := result.data.user.contributionsCollection.totalPullRequestContributions
    TotalIssues := result.data.user.contributionsCollection.totalIssueContributions
    ContributedTo := result.data.user.repositoriesContributedTo.totalCount
    TotalContributions :=
      result.data.user.contributionsCollection.contributionCalendar.totalContributions }

/-- `fetchStats` (lines 164-245), from the delivered response onwards:
status check (line 212), rate-limit header check (line 217), body unmarshal
(line 223), GraphQL error-list check (line 228), then the reduction. -/
def fetchStats : FetchInput → Except FetchError StatsCard
  | .transportFail msg => .error (.transport msg)
  | .response status remaining reset rawBody parsed =>
    if status ≠ 200 then
      .error (.httpStatus status rawBody)
    else if remaining = "0" then
      .error (.rateLimit reset)
    else
      match unmarshalGitHubResponse parsed with
      | .error msg => .error (.unmarshal msg)
      | .ok result =>
        if result.errors.length > 0 then
          .error (.graphql result.errors)
        else
          .ok (aggregate result)

/-- The two-node payload of the spec's aggregation example: repository star
counts 10 and 5, everything else zero. -/
def twoNodeResponse : GitHubResponse :=
  ⟨⟨{ zeroUserData with repositories := ⟨[⟨10⟩, ⟨5⟩]⟩ }⟩, []⟩

theorem sumStars_eq_sum (nodes : List RepoNode) :
    sumStars nodes = (nodes.map RepoNode.stargazerCount).sum := by
  have h : ∀ (l : List RepoNode) (acc : Int),
      l.foldl (fun totalStars repo => totalStars + repo.stargazerCount) acc
        = acc + (l.map RepoNode.stargazerCount).sum := by
    intro l
    induction l with
    | nil => intro acc; simp
    | cons x xs ih =>
      intro acc
      simp [List.foldl_cons, ih, add_assoc]
  simpa using h nodes 0

/-- **C2.** The `TotalStars` field of the aggregated `StatsCard` is the sum
of `stargazerCount` over all repository nodes of the payload; in particular
the two-node payload with star counts 10 and 5 aggregates to 15. -/
theorem aggregate_totalStars_sum :
    (∀ r : GitHubResponse,
      (aggregate r).TotalStars = (r.data.user.repositories.nodes.map RepoNode.stargazerCount).sum) ∧
    (aggregate twoNodeResponse).TotalStars = 15 := by
  refine ⟨fun r => ?_, by decide⟩
  simp [aggregate, sumStars_eq_sum]

/-! ## Outcome classification -/

/-- The kind of a `fetchStats` outcome. -/
inductive OutcomeKind where
  | success
  | transportFailure
  | httpStatusFailure
  | rateLimitExhaustion
  | bodyDecodeFailure
  | graphqlFailure
deriving DecidableEq, Repr

/-- The kind of the outcome `fetchStats` actually produced. -/
def outcomeKind : Except FetchError StatsCard → OutcomeKind
  | .ok _ => .success
  | .error (.transport _) => .transportFailure
  | .error (.httpStatus _ _) => .httpStatusFailure
  | .error (.rateLimit _) => .rateLimitExhaustion
  | .error (.unmarshal _) => .bodyDecodeFailure
  | .error (.graphql _) => .graphqlFailure

/-- Whether an error belongs to the four-kind taxonomy named by the spec:
transport failure, non-success HTTP status, rate-limit exhaustion, or
GraphQL-level failure.  This definition follows the spec's words; the code's
unmarshal-failure path (line 223-225) falls outside all four. -/
def inSpecFourKindTaxonomy : FetchError → Bool
  | .transport _ => true
  | .httpStatus _ _ => true
  | .rateLimit _ => true
  | .graphql _ => true
  | .unmarshal _ => false

/-- Classification of an invocation by the spec's conditions (spec section
4.1), amended with the one class the spec omits: a delivered success-status
response whose body fails to unmarshal.  Success demands HTTP success, the
zero-remaining-quota signal absent, a body that unmarshals, and an empty
error list. -/
def specClassify : FetchInput → OutcomeKind
  | .transportFail _ => .transportFailure
  | .response status remaining _ _ parsed =>
    if status ≠ 200 then .httpStatusFailure
    else if remaining = "0" then .rateLimitExhaustion
    else
      match unmarshalGitHubResponse parsed with
      | .error _ => .bodyDecodeFailure
      | .ok r => if r.errors.length > 0 then .graphqlFailure else .success

/-- **C1, counterexample.**  A delivered response with status 200, remaining
quota `"1"` and a body that is not valid JSON makes `fetchStats` return an
unmarshal error, an outcome outside the four error kinds the claim says are
the only ones. -/
theorem fetchStats_decode_failure_outside_taxonomy :
    fetchStats (.response 200 "1" "" "not json" none)
      = .error (.unmarshal "invalid character looking for beginning of value") ∧
    inSpecFourKindTaxonomy
      (.unmarshal "invalid character looking for beginning of value") = false :=
  ⟨rfl, rfl⟩

/-- **C1, amended.**  A delivered response with HTTP success, remaining-quota
header other than `"0"`, a body that unmarshals, and an empty error list
yields a successful `StatsCard`; and every invocation outcome is classified
into exactly one of: success, transport failure, non-success HTTP status,
rate-limit exhaustion, body-decode failure, or GraphQL-level failure, as
decided by `specClassify`. -/
theorem fetchStats_classification :
    (∀ (status : Nat) (remaining reset rawBody : String) (parsed : Option Json)
        (r : GitHubResponse),
        status = 200 → remaining ≠ "0" →
        unmarshalGitHubResponse parsed = .ok r → r.errors = [] →
        fetchStats (.response status remaining reset rawBody parsed) = .ok (aggregate r)) ∧
    (∀ input : FetchInput, outcomeKind (fetchStats input) = specClassify input) := by
  constructor
  · intro status remaining reset rawBody parsed r hs hr hu he
    subst hs
    simp [fetchStats, hr, hu, he]
  · intro input
    cases input with
    | transportFail msg => rfl
    | response status remaining reset rawBody parsed =>
      by_cases h1 : status ≠ 200
      · simp [fetchStats, specClassify, h1, outcomeKind]
      · by_cases h2 : remaining = "0"
        · simp [fetchStats, specClassify, h1, h2, outcomeKind]
        · cases hu : unmarshalGitHubResponse parsed with
          | error msg => simp [fetchStats, specClassify, h1, h2, hu, outcomeKind]
          | ok r =>
            by_cases h3 : r.errors.length > 0
            · simp [fetchStats, specClassify, h1, h2, hu, h3, outcomeKind]
            · simp [fetchStats, specClassify, h1, h2, hu, h3, outcomeKind]

/-- Witness for `fetchStats_classification`: a 200-status response with
remaining quota `"1"` and body `\x7b\x7d` succeeds. -/
theorem fetchStats_classification_witness :
    fetchStats (.response 200 "1" "" "\x7b\x7d" (some (.obj [])))
      = .ok (aggregate zeroGitHubResponse) :=
  fetchStats_classification.1 200 "1" "" "\x7b\x7d" (some (.obj []))
    zeroGitHubResponse rfl (by decide) rfl rfl

/-- **C8.**  A delivered success-status response whose `X-RateLimit-Remaining`
header is `"0"` and whose `X-RateLimit-Reset` header is `"1699999999"` makes
`fetchStats` report a rate-limit error carrying the reset-time string
`"1699999999"` verbatim, whatever the body. -/
theorem fetchStats_rateLimit_reset_verbatim :
    ∀ (rawBody : String) (parsed : Option Json),
      fetchStats (.response 200 "0" "1699999999" rawBody parsed)
        = .error (.rateLimit "1699999999") := by
  intro rawBody parsed
  rfl

/-! ### Absent keys decode to zero

`jsonPath?` resolves a chain of object keys inside a parsed JSON value;
`none` means the chain breaks off — a key is absent, or an enclosing value
is `null` (which `encoding/json` likewise leaves as the zero value).  The
lemmas below walk the decoder structure by structure and show that whenever
a field's backing key path is absent from a body that decodes, the decoded
field is the Go zero value. -/

/-- Follow a chain of object keys inside a JSON value; `none` when the
chain breaks off before its end. -/
def jsonPath? : Json → List String → Option Json
  | j, [] => some j
  | .obj kvs, k :: rest =>
    match lookupField kvs k with
    | some v => jsonPath? v rest
    | none => none
  | _, _ => none

/-- `jsonPath?` lifted to an optional value (an absent or present field). -/
def optPath? : Option Json → List String → Option Json
  | none, _ => none
  | some j, p => jsonPath? j p

theorem decodeContributionCalendar_absent (o : Option Json)
    (cal : ContributionCalendar) (h : decodeContributionCalendar o = .ok cal) :
    optPath? o ["totalContributions"] = none → cal.totalContributions = 0 := by
  intro ha
  cases o with
  | none =>
    simp [decodeContributionCalendar] at h
    simp [← h, zeroContributionCalendar]
  | some j =>
    cases j with
    | null =>
      simp [decodeContributionCalendar] at h
      simp [← h, zeroContributionCalendar]
    | obj kvs =>
      have hl : lookupField kvs "totalContributions" = none := by
        cases hv : lookupField kvs "totalContributions" with
        | none => rfl
        | some v => simp [optPath?, jsonPath?, hv] at ha
      simp [decodeContributionCalendar, hl, decodeIntField, Bind.bind, Except.bind] at h
      simp [← h]
    | bool b => simp [decodeContributionCalendar] at h
    | num n => simp [decodeContributionCalendar] at h
    | str sv => simp [decodeContributionCalendar] at h
    | arr es => simp [decodeContributionCalendar] at h

theorem decodeContributionsCollection_absent (o : Option Json)
    (cc : ContributionsCollection) (h : decodeContributionsCollection o = .ok cc) :
    (optPath? o ["totalCommitContributions"] = none →
      cc.totalCommitContributions = 0) ∧
    (optPath? o ["totalIssueContributions"] = none →
      cc.totalIssueContributions = 0) ∧
    (optPath? o ["totalPullRequestContributions"] = none →
      cc.totalPullRequestContributions = 0) ∧
    (optPath? o ["contributionCalendar", "totalContributions"] = none →
      cc.contributionCalendar.totalContributions = 0) := by
  obtain ⟨d1, d2, d3, d4⟩ := cc
  cases o with
  | none =>
    simp [decodeContributionsCollection, zeroContributionsCollection,
      zeroContributionCalendar] at h
    obtain ⟨e1, e2, e3, e4⟩ := h
    simp [← e1, ← e2, ← e3, ← e4, zeroContributionCalendar]
  | some j =>
    cases j with
    | null =>
      simp [decodeContributionsCollection, zeroContributionsCollection,
        zeroContributionCalendar] at h
      obtain ⟨e1, e2, e3, e4⟩ := h
      simp [← e1, ← e2, ← e3, ← e4, zeroContributionCalendar]
    | obj kvs =>
      cases h1 : decodeIntField (lookupField kvs "totalCommitContributions") with
      | error e => simp [decodeContributionsCollection, h1, Bind.bind, Except.bind] at h
      | ok c1 =>
      cases h2 : decodeIntField (lookupField kvs "totalIssueContributions") with
      | error e => simp [decodeContributionsCollection, h1, h2, Bind.bind, Except.bind] at h
      | ok c2 =>
      cases h3 : decodeIntField (lookupField kvs "totalPullRequestContributions") with
      | error e => simp [decodeContributionsCollection, h1, h2, h3, Bind.bind, Except.bind] at h
      | ok c3 =>
      cases h4 : decodeContributionCalendar (lookupField kvs "contributionCalendar") with
      | error e => simp [decodeContributionsCollection, h1, h2, h3, h4, Bind.bind, Except.bind] at h
      | ok cal =>
        simp [decodeContributionsCollection, h1, h2, h3, h4, Bind.bind, Except.bind] at h
        obtain ⟨e1, e2, e3, e4⟩ := h
        refine ⟨?_, ?_, ?_, ?_⟩
        · intro ha
          have hl : lookupField kvs "totalCommitContributions" = none := by
            cases hv : lookupField kvs "totalCommitContributions" with
            | none => rfl
            | some v => simp [optPath?, jsonPath?, hv] at ha
          rw [hl] at h1
          simp [decodeIntField] at h1
          show d1 = 0
          omega
        · intro ha
          have hl : lookupField kvs "totalIssueContributions" = none := by
            cases hv : lookupField kvs "totalIssueContributions" with
            | none => rfl
            | some v => simp [optPath?, jsonPath?, hv] at ha
          rw [hl] at h2
          simp [decodeIntField] at h2
          show d2 = 0
          omega
        · intro ha
          have hl : lookupField kvs "totalPullRequestContributions" = none := by
            cases hv : lookupField kvs "totalPullRequestContributions" with
            | none => rfl
            | some v => simp [optPath?, jsonPath?, hv] at ha
          rw [hl] at h3
          simp [decodeIntField] at h3
          show d3 = 0
          omega
        · intro ha
          have ha' : optPath? (lookupField kvs "contributionCalendar")
              ["totalContributions"] = none := by
            cases hv : lookupField kvs "contributionCalendar" with
            | none => rfl
            | some v => simpa [optPath?, jsonPath?, hv] using ha
          have hz := decodeContributionCalendar_absent _ _ h4 ha'
          show d4.totalContributions = 0
          rw [← e4]
          exact hz
    | bool b => simp [decodeContributionsCollection] at h
    | num n => simp [decodeContributionsCollection] at h
    | str sv => simp [decodeContributionsCollection] at h
    | arr es => simp [decodeContributionsCollection] at h

theorem decodeRepositoriesContributedTo_absent (o : Option Json)
    (rc : RepositoriesContributedTo) (h : decodeRepositoriesContributedTo o = .ok rc) :
    optPath? o ["totalCount"] = none → rc.totalCount = 0 := by
  intro ha
  cases o with
  | none =>
    simp [decodeRepositoriesContributedTo] at h
    simp [← h, zeroRepositoriesContributedTo]
  | some j =>
    cases j with
    | null =>
      simp [decodeRepositoriesContributedTo] at h
      simp [← h, zeroRepositoriesContributedTo]
    | obj kvs =>
      have hl : lookupField kvs "totalCount" = none := by
        cases hv : lookupField kvs "totalCount" with
        | none => rfl
        | some v => simp [optPath?, jsonPath?, hv] at ha
      simp [decodeRepositoriesContributedTo, hl, decodeIntField,
        Bind.bind, Except.bind] at h
      simp [← h]
    | bool b => simp [decodeRepositoriesContributedTo] at h
    | num n => simp [decodeRepositoriesContributedTo] at h
    | str sv => simp [decodeRepositoriesContributedTo] at h
    | arr es => simp [decodeRepositoriesContributedTo] at h

theorem decodeRepositories_absent (o : Option Json)
    (rp : Repositories) (h : decodeRepositories o = .ok rp) :
    optPath? o ["nodes"] = none → rp.nodes = [] := by
  intro ha
  cases o with
  | none =>
    simp [decodeRepositories] at h
    simp [← h, zeroRepositories]
  | some j =>
    cases j with
    | null =>
      simp [decodeRepositories] at h
      simp [← h, zeroRepositories]
    | obj kvs =>
      have hl : lookupField kvs "nodes" = none := by
        cases hv : lookupField kvs "nodes" with
        | none => rfl
        | some v => simp [optPath?, jsonPath?, hv] at ha
      simp [decodeRepositories, hl, decodeNodes, Bind.bind, Except.bind] at h
      simp [← h]
    | bool b => simp [decodeRepositories] at h
    | num n => simp [decodeRepositories] at h
    | str sv => simp [decodeRepositories] at h
    | arr es => simp [decodeRepositories] at h

theorem decodeUserData_absent (o : Option Json)
    (u : UserData) (h : decodeUserData o = .ok u) :
    (optPath? o ["contributionsCollection", "totalCommitContributions"] = none →
      u.contributionsCollection.totalCommitContributions = 0) ∧
    (optPath? o ["contributionsCollection", "totalIssueContributions"] = none →
      u.contributionsCollection.totalIssueContributions = 0) ∧
    (optPath? o ["contributionsCollection", "totalPullRequestContributions"] = none →
      u.contributionsCollection.totalPullRequestContributions = 0) ∧
    (optPath? o ["contributionsCollection", "contributionCalendar", "totalContributions"] = none →
      u.contributionsCollection.contributionCalendar.totalContributions = 0) ∧
    (optPath? o ["repositoriesContributedTo", "totalCount"] = none →
      u.repositoriesContributedTo.totalCount = 0) ∧
    (optPath? o ["repositories", "nodes"] = none →
      u.repositories.nodes = []) := by
  obtain ⟨u1, u2, u3⟩ := u
  cases o with
  | none =>
    simp [decodeUserData, zeroUserData] at h
    obtain ⟨e1, e2, e3⟩ := h
    simp [← e1, ← e2, ← e3, zeroContributionsCollection, zeroContributionCalendar,
      zeroRepositoriesContributedTo, zeroRepositories]
  | some j =>
    cases j with
    | null =>
      simp [decodeUserData, zeroUserData] at h
      obtain ⟨e1, e2, e3⟩ := h
      simp [← e1, ← e2, ← e3, zeroContributionsCollection, zeroContributionCalendar,
        zeroRepositoriesContributedTo, zeroRepositories]
    | obj kvs =>
      cases hcc : decodeContributionsCollection (lookupField kvs "contributionsCollection") with
      | error e => simp [decodeUserData, hcc, Bind.bind, Except.bind] at h
      | ok cc =>
      cases hrc : decodeRepositoriesContributedTo (lookupField kvs "repositoriesContributedTo") with
      | error e => simp [decodeUserData, hcc, hrc, Bind.bind, Except.bind] at h
      | ok rc =>
      cases hrp : decodeRepositories (lookupField kvs "repositories") with
      | error e => simp [decodeUserData, hcc, hrc, hrp, Bind.bind, Except.bind] at h
      | ok rp =>
        simp [decodeUserData, hcc, hrc, hrp, Bind.bind, Except.bind] at h
        obtain ⟨e1, e2, e3⟩ := h
        obtain ⟨q1, q2, q3, q4⟩ := decodeContributionsCollection_absent _ _ hcc
        refine ⟨?_, ?_, ?_, ?_, ?_, ?_⟩
        · intro ha
          have ha' : optPath? (lookupField kvs "contributionsCollection")
              ["totalCommitContributions"] = none := by
            cases hv : lookupField kvs "contributionsCollection" with
            | none => rfl
            | some v => simpa [optPath?, jsonPath?, hv] using ha
          rw [show u1 = cc from e1.symm]
          exact q1 ha'
        · intro ha
          have ha' : optPath? (lookupField kvs "contributionsCollection")
              ["totalIssueContributions"] = none := by
            cases hv : lookupField kvs "contributionsCollection" with
            | none => rfl
            | some v => simpa [optPath?, jsonPath?, hv] using ha
          rw [show u1 = cc from e1.symm]
          exact q2 ha'
        · intro ha
          have ha' : optPath? (lookupField kvs "contributionsCollection")
              ["totalPullRequestContributions"] = none := by
            cases hv : lookupField kvs "contributionsCollection" with
            | none => rfl
            | some v => simpa [optPath?, jsonPath?, hv] using ha
          rw [show u1 = cc from e1.symm]
          exact q3 ha'
        · intro ha
          have ha' : optPath? (lookupField kvs "contributionsCollection")
              ["contributionCalendar", "totalContributions"] = none := by
            cases hv : lookupField kvs "contributionsCollection" with
            | none => rfl
            | some v => simpa [optPath?, jsonPath?, hv] using ha
          rw [show u1 = cc from e1.symm]
          exact q4 ha'
        · intro ha
          have ha' : optPath? (lookupField kvs "repositoriesContributedTo")
              ["totalCount"] = none := by
            cases hv : lookupField kvs "repositoriesContributedTo" with
            | none => rfl
            | some v => simpa [optPath?, jsonPath?, hv] using ha
          rw [show u2 = rc from e2.symm]
          exact decodeRepositoriesContributedTo_absent _ _ hrc ha'
        · intro ha
          have ha' : optPath? (lookupField kvs "repositories") ["nodes"] = none := by
            cases hv : lookupField kvs "repositories" with
            | none => rfl
            | some v => simpa [optPath?, jsonPath?, hv] using ha
          rw [show u3 = rp from e3.symm]
          exact decodeRepositories_absent _ _ hrp ha'
    | bool b => simp [decodeUserData] at h
    | num n => simp [decodeUserData] at h
    | str sv => simp [decodeUserData] at h
    | arr es => simp [decodeUserData] at h

theorem decodeGitHubResponse_absent (j : Json) (r : GitHubResponse)
    (h : decodeGitHubResponse j = .ok r) :
    (jsonPath? j ["data", "user", "contributionsCollection", "totalCommitContributions"] = none →
      r.data.user.contributionsCollection.totalCommitContributions = 0) ∧
    (jsonPath? j ["data", "user", "contributionsCollection", "totalIssueContributions"] = none →
      r.data.user.contributionsCollection.totalIssueContributions = 0) ∧
    (jsonPath? j ["data", "user", "contributionsCollection", "totalPullRequestContributions"] = none →
      r.data.user.contributionsCollection.totalPullRequestContributions = 0) ∧
    (jsonPath? j ["data", "user", "contributionsCollection", "contributionCalendar", "totalContributions"] = none →
      r.data.user.contributionsCollection.contributionCalendar.totalContributions = 0) ∧
    (jsonPath? j ["data", "user", "repositoriesContributedTo", "totalCount"] = none →
      r.data.user.repositoriesContributedTo.totalCount = 0) ∧
    (jsonPath? j ["data", "user", "repositories", "nodes"] = none →
      r.data.user.repositories.nodes = []) := by
  have hd : ∀ (o : Option Json) (d : DataField), decodeDataField o = .ok d →
      (optPath? o ["user", "contributionsCollection", "totalCommitContributions"] = none →
        d.user.contributionsCollection.totalCommitContributions = 0) ∧
      (optPath? o ["user", "contributionsCollection", "totalIssueContributions"] = none →
        d.user.contributionsCollection.totalIssueContributions = 0) ∧
      (optPath? o ["user", "contributionsCollection", "totalPullRequestContributions"] = none →
        d.user.contributionsCollection.totalPullRequestContributions = 0) ∧
      (optPath? o ["user", "contributionsCollection", "contributionCalendar", "totalContributions"] = none →
        d.user.contributionsCollection.contributionCalendar.totalContributions = 0) ∧
      (optPath? o ["user", "repositoriesContributedTo", "totalCount"] = none →
        d.user.repositoriesContributedTo.totalCount = 0) ∧
      (optPath? o ["user", "repositories", "nodes"] = none →
        d.user.repositories.nodes = []) := by
    intro o d hdf
    obtain ⟨du⟩ := d
    cases o with
    | none =>
      simp [decodeDataField, zeroDataField] at hdf
      simp [← hdf, zeroUserData, zeroContributionsCollection, zeroContributionCalendar,
        zeroRepositoriesContributedTo, zeroRepositories]
    | some jd =>
      cases jd with
      | null =>
        simp [decodeDataField, zeroDataField] at hdf
        simp [← hdf, zeroUserData, zeroContributionsCollection, zeroContributionCalendar,
          zeroRepositoriesContributedTo, zeroRepositories]
      | obj kvs =>
        cases hu : decodeUserData (lookupField kvs "user") with
        | error e => simp [decodeDataField, hu, Bind.bind, Except.bind] at hdf
        | ok uu =>
          simp [decodeDataField, hu, Bind.bind, Except.bind] at hdf
          obtain ⟨q1, q2, q3, q4, q5, q6⟩ := decodeUserData_absent _ _ hu
          have convert : ∀ rest : List String,
              jsonPath? (.obj kvs) ("user" :: rest) = none →
              optPath? (lookupField kvs "user") rest = none := by
            intro rest ha
            cases hv : lookupField kvs "user" with
            | none => rfl
            | some v => simpa [optPath?, jsonPath?, hv] using ha
          rw [show du = uu from hdf.symm]
          exact ⟨fun ha => q1 (convert _ ha), fun ha => q2 (convert _ ha),
            fun ha => q3 (convert _ ha), fun ha => q4 (convert _ ha),
            fun ha => q5 (convert _ ha), fun ha => q6 (convert _ ha)⟩
      | bool b => simp [decodeDataField] at hdf
      | num n => simp [decodeDataField] at hdf
      | str sv => simp [decodeDataField] at hdf
      | arr es => simp [decodeDataField] at hdf
  obtain ⟨rd, re⟩ := r
  cases j with
  | null =>
    simp [decodeGitHubResponse, zeroGitHubResponse, zeroDataField] at h
    obtain ⟨e1, e2⟩ := h
    simp [← e1, zeroUserData, zeroContributionsCollection, zeroContributionCalendar,
      zeroRepositoriesContributedTo, zeroRepositories]
  | obj kvs =>
    cases hdf : decodeDataField (lookupField kvs "data") with
    | error e => simp [decodeGitHubResponse, hdf, Bind.bind, Except.bind] at h
    | ok d =>
    cases hes : decodeErrors (lookupField kvs "errors") with
    | error e => simp [decodeGitHubResponse, hdf, hes, Bind.bind, Except.bind] at h
    | ok es =>
      simp [decodeGitHubResponse, hdf, hes, Bind.bind, Except.bind] at h
      obtain ⟨e1, e2⟩ := h
      obtain ⟨q1, q2, q3, q4, q5, q6⟩ := hd _ _ hdf
      have convert : ∀ rest : List String,
          jsonPath? (.obj kvs) ("data" :: rest) = none →
          optPath? (lookupField kvs "data") rest = none := by
        intro rest ha
        cases hv : lookupField kvs "data" with
        | none => rfl
        | some v => simpa [optPath?, jsonPath?, hv] using ha
      rw [show rd = d from e1.symm]
      exact ⟨fun ha => q1 (convert _ ha), fun ha => q2 (convert _ ha),
        fun ha => q3 (convert _ ha), fun ha => q4 (convert _ ha),
        fun ha => q5 (convert _ ha), fun ha => q6 (convert _ ha)⟩
  | bool b => simp [decodeGitHubResponse] at h
  | num n => simp [decodeGitHubResponse] at h
  | str sv => simp [decodeGitHubResponse] at h
  | arr es => simp [decodeGitHubResponse] at h

/-- **C9.**  For every delivered response with a 200 status and no
zero-remaining-quota header whose body is valid JSON and decodes (its
present fields being well-typed), `fetchStats` succeeds — a body lacking
some or all of the expected fields is never an error — and every field of
the returned `StatsCard` whose backing JSON key path is absent from the
body is zero: absent keys silently decode to zero. -/
theorem fetchStats_absent_keys_decode_zero :
    ∀ (remaining reset rawBody : String) (j : Json) (r : GitHubResponse),
      remaining ≠ "0" →
      decodeGitHubResponse j = .ok r →
      r.errors = [] →
      fetchStats (.response 200 remaining reset rawBody (some j)) = .ok (aggregate r) ∧
      (jsonPath? j ["data", "user", "repositories", "nodes"] = none →
        (aggregate r).TotalStars = 0) ∧
      (jsonPath? j ["data", "user", "contributionsCollection", "totalCommitContributions"] = none →
        (aggregate r).TotalCommits = 0) ∧
      (jsonPath? j ["data", "user", "contributionsCollection", "totalPullRequestContributions"] = none →
        (aggregate r).TotalPRs = 0) ∧
      (jsonPath? j ["data", "user", "contributionsCollection", "totalIssueContributions"] = none →
        (aggregate r).TotalIssues = 0) ∧
      (jsonPath? j ["data", "user", "repositoriesContributedTo", "totalCount"] = none →
        (aggregate r).ContributedTo = 0) ∧
      (jsonPath? j ["data", "user", "contributionsCollection", "contributionCalendar", "totalContributions"] = none →
        (aggregate r).TotalContributions = 0) := by
  intro remaining reset rawBody j r hr hdec he
  obtain ⟨q1, q2, q3, q4, q5, q6⟩ := decodeGitHubResponse_absent j r hdec
  refine ⟨?_, ?_, ?_, ?_, ?_, ?_, ?_⟩
  · simp [fetchStats, hr, unmarshalGitHubResponse, hdec, he]
  · intro ha
    simp [aggregate, q6 ha, sumStars]
  · intro ha
    simpa [aggregate] using q1 ha
  · intro ha
    simpa [aggregate] using q3 ha
  · intro ha
    simpa [aggregate] using q2 ha
  · intro ha
    simpa [aggregate] using q5 ha
  · intro ha
    simpa [aggregate] using q4 ha

/-- A body lacking most of the expected fields: only
`data.user.contributionsCollection.totalIssueContributions` is present. -/
def partialBody : Json :=
  .obj [("data", .obj [("user", .obj [("contributionsCollection",
    .obj [("totalIssueContributions", .num 4)])])])]

/-- What `partialBody` decodes to: the issue counter is 4, every other
field is the zero value. -/
def partialResponse : GitHubResponse :=
  ⟨⟨⟨⟨0, 4, 0, zeroContributionCalendar⟩, zeroRepositoriesContributedTo,
    zeroRepositories⟩⟩, []⟩

/-- Witness for `fetchStats_absent_keys_decode_zero`: a valid JSON body
carrying only the issue counter succeeds, and the fields whose keys are
absent come out zero. -/
theorem fetchStats_absent_keys_decode_zero_witness :
    fetchStats (.response 200 "1" ""
        "\x7b\x22data\x22:\x7b\x22user\x22:\x7b\x22contributionsCollection\x22:\x7b\x22totalIssueContributions\x22:4\x7d\x7d\x7d\x7d"
        (some partialBody))
      = .ok (aggregate partialResponse) ∧
    (aggregate partialResponse).TotalStars = 0 ∧
    (aggregate partialResponse).TotalCommits = 0 ∧
    (aggregate partialResponse).TotalIssues = 4 := by
  obtain ⟨h1, h2, h3, _, _, _, _⟩ := fetchStats_absent_keys_decode_zero "1" ""
    "\x7b\x22data\x22:\x7b\x22user\x22:\x7b\x22contributionsCollection\x22:\x7b\x22totalIssueContributions\x22:4\x7d\x7d\x7d\x7d"
    partialBody partialResponse (by decide) rfl rfl
  exact ⟨h1, h2 rfl, h3 rfl, rfl⟩

/-- The status code of a delivered response; `none` for a transport failure. -/
def FetchInput.statusCode : FetchInput → Option Nat
  | .transportFail _ => none
  | .response status _ _ _ _ => some status

/-- **C10.**  The status check precedes the rate-limit header check: a
non-success status is reported as a status error even when
`X-RateLimit-Remaining` is `"0"`, and a rate-limit error is only ever
produced for a delivered response whose status is 200. -/
theorem fetchStats_status_precedes_rateLimit :
    (∀ (status : Nat) (remaining reset rawBody : String) (parsed : Option Json),
        status ≠ 200 →
        fetchStats (.response status remaining reset rawBody parsed)
          = .error (.httpStatus status rawBody)) ∧
    (∀ (input : FetchInput) (reset : String),
        fetchStats input = .error (.rateLimit reset) →
        input.statusCode = some 200) := by
  constructor
  · intro status remaining reset rawBody parsed h
    simp [fetchStats, h]
  · intro input reset h
    cases input with
    | transportFail msg => simp [fetchStats] at h
    | response status remaining reset' rawBody parsed =>
      by_cases h1 : status ≠ 200
      · simp [fetchStats, h1] at h
      · push_neg at h1
        simp [FetchInput.statusCode, h1]

/-- Witness for `fetchStats_status_precedes_rateLimit`: a 403 response with
`X-RateLimit-Remaining` equal to `"0"` is reported as a status error. -/
theorem fetchStats_status_precedes_rateLimit_witness :
    fetchStats (.response 403 "0" "1699999999" "limited" none)
      = .error (.httpStatus 403 "limited") :=
  fetchStats_status_precedes_rateLimit.1 403 "0" "1699999999" "limited" none
    (by decide)

/-! ## The SVG renderer -/

/-- Literal segment 1 of the `generateStatsCardSVG` format string
(lines 248-326): the text before the first verb, with the lone double-percent verb already rendered as a single percent sign. -/
def svgSeg1 : String :=
"<svg width=\"600\" height=\"150\" viewBox=\"0 0 600 150\" fill=\"none\" xmlns=\"http://www.w3.org/2000/svg\" role=\"img\" aria-labelledby=\"descId\">
  <title id=\"titleId\">GitHub Stats Card</title>
  <desc id=\"descId\">GitHub statistics for user contributions</desc>

  <style>
    .header \x7b font: 600 18px \x27Segoe UI\x27, Ubuntu, Sans-Serif; fill: #2f80ed; \x7d
    .stat \x7b font: 600 14px \x27Segoe UI\x27, Ubuntu, Sans-Serif; fill: #434d58; \x7d
    .statlabel \x7b font: 400 12px \x27Segoe UI\x27, Ubuntu, Sans-Serif; fill: #586069; \x7d
    .icon \x7b fill: #586069; \x7d
    .card-bg \x7b fill: #fffefe; \x7d
    .card-border \x7b stroke: #e4e2e2; \x7d

    @media (prefers-color-scheme: dark) \x7b
      .stat \x7b fill: #e1e4e8; \x7d
      .statlabel \x7b fill: #8b949e; \x7d
      .icon \x7b fill: #8b949e; \x7d
      .card-bg \x7b fill: #0d1117; \x7d
      .card-border \x7b stroke: #30363d; \x7d
    \x7d
  </style>

  <rect class=\"card-bg\" x=\"0.5\" y=\"0.5\" rx=\"4.5\" height=\"99%\" width=\"599\" class=\"card-border\" stroke-width=\"1\" stroke-opacity=\"1\"/>

  <g transform=\"translate(25, 30)\">
    <!\x2d\x2d Total Stars \x2d\x2d>
    <g transform=\"translate(0, 0)\">
      <svg y=\"-2\" viewBox=\"0 0 16 16\" version=\"1.1\" width=\"16\" height=\"16\">
        <path fill=\"#FFD700\" fill-rule=\"evenodd\" d=\"M8 .25a.75.75 0 01.673.418l1.882 3.815 4.21.612a.75.75 0 01.416 1.279l-3.046 2.97.719 4.192a.75.75 0 01-1.088.791L8 12.347l-3.766 1.98a.75.75 0 01-1.088-.79l.72-4.194L.818 6.374a.75.75 0 01.416-1.28l4.21-.611L7.327.668A.75.75 0 018 .25z\"/>
      </svg>
      <text class=\"stat\" x=\"25\" y=\"12.5\">Total Stars:</text>
      <text class=\"stat\" x=\"135\" y=\"12.5\" font-weight=\"bold\">"

/-- Literal segment 2 of the `generateStatsCardSVG` format string
(lines 248-326): the text between the verbs for fields 1 and 2. -/
def svgSeg2 : String :=
"</text>
    </g>

    <!\x2d\x2d Total Commits \x2d\x2d>
    <g transform=\"translate(0, 35)\">
      <svg y=\"-2\" viewBox=\"0 0 16 16\" version=\"1.1\" width=\"16\" height=\"16\">
        <path class=\"icon\" fill-rule=\"evenodd\" d=\"M1.643 3.143L.427 1.927A.25.25 0 000 2.104V5.75c0 .138.112.25.25.25h3.646a.25.25 0 00.177-.427L2.715 4.215a6.5 6.5 0 11-1.18 4.458.75.75 0 10-1.493.154 8.001 8.001 0 101.6-5.684zM7.75 4a.75.75 0 01.75.75v2.992l2.028.812a.75.75 0 01-.557 1.392l-2.5-1A.75.75 0 017 8.25v-3.5A.75.75 0 017.75 4z\"/>
      </svg>
      <text class=\"stat\" x=\"25\" y=\"12.5\">Total Commits (2025):</text>
      <text class=\"stat\" x=\"205\" y=\"12.5\" font-weight=\"bold\">"

/-- Literal segment 3 of the `generateStatsCardSVG` format string
(lines 248-326): the text between the verbs for fields 2 and 3. -/
def svgSeg3 : String :=
"</text>
    </g>

    <!\x2d\x2d Total PRs \x2d\x2d>
    <g transform=\"translate(0, 70)\">
      <svg y=\"-2\" viewBox=\"0 0 16 16\" version=\"1.1\" width=\"16\" height=\"16\">
        <path class=\"icon\" fill-rule=\"evenodd\" d=\"M7.177 3.073L9.573.677A.25.25 0 0110 .854v4.792a.25.25 0 01-.427.177L7.177 3.427a.25.25 0 010-.354zM3.75 2.5a.75.75 0 100 1.5.75.75 0 000-1.5zm-2.25.75a2.25 2.25 0 113 2.122v5.256a2.251 2.251 0 11-1.5 0V5.372A2.25 2.25 0 011.5 3.25zM11 2.5h-1V4h1a1 1 0 011 1v5.628a2.251 2.251 0 101.5 0V5A2.5 2.5 0 0011 2.5zm1 10.25a.75.75 0 111.5 0 .75.75 0 01-1.5 0zM3.75 12a.75.75 0 100 1.5.75.75 0 000-1.5z\"/>
      </svg>
      <text class=\"stat\" x=\"25\" y=\"12.5\">Total PRs:</text>
      <text class=\"stat\" x=\"110\" y=\"12.5\" font-weight=\"bold\">"

/-- Literal segment 4 of the `generateStatsCardSVG` format string
(lines 248-326): the text between the verbs for fields 3 and 4. -/
def svgSeg4 : String :=
"</text>
    </g>

    <!\x2d\x2d Total Issues \x2d\x2d>
    <g transform=\"translate(300, 0)\">
      <svg y=\"-2\" viewBox=\"0 0 16 16\" version=\"1.1\" width=\"16\" height=\"16\">
        <path class=\"icon\" fill-rule=\"evenodd\" d=\"M8 1.5a6.5 6.5 0 100 13 6.5 6.5 0 000-13zM0 8a8 8 0 1116 0A8 8 0 010 8zm9 3a1 1 0 11-2 0 1 1 0 012 0zm-.25-6.25a.75.75 0 00-1.5 0v3.5a.75.75 0 001.5 0v-3.5z\"/>
      </svg>
      <text class=\"stat\" x=\"25\" y=\"12.5\">Total Issues:</text>
      <text class=\"stat\" x=\"125\" y=\"12.5\" font-weight=\"bold\">"

/-- Literal segment 5 of the `generateStatsCardSVG` format string
(lines 248-326): the text between the verbs for fields 4 and 5. -/
def svgSeg5 : String :=
"</text>
    </g>

    <!\x2d\x2d Contributed To \x2d\x2d>
    <g transform=\"translate(300, 35)\">
      <svg y=\"-2\" viewBox=\"0 0 16 16\" version=\"1.1\" width=\"16\" height=\"16\">
        <path class=\"icon\" fill-rule=\"evenodd\" d=\"M2 2.5A2.5 2.5 0 014.5 0h8.75a.75.75 0 01.75.75v12.5a.75.75 0 01-.75.75h-2.5a.75.75 0 110-1.5h1.75v-2h-8a1 1 0 00-.714 1.7.75.75 0 01-1.072 1.05A2.495 2.495 0 012 11.5v-9zm10.5-1V9h-8c-.356 0-.694.074-1 .208V2.5a1 1 0 011-1h8zM5 12.25v3.25a.25.25 0 00.4.2l1.45-1.087a.25.25 0 01.3 0L8.6 15.7a.25.25 0 00.4-.2v-3.25a.25.25 0 00-.25-.25h-3.5a.25.25 0 00-.25.25z\"/>
      </svg>
      <text class=\"stat\" x=\"25\" y=\"12.5\">Contributed to:</text>
      <text class=\"stat\" x=\"150\" y=\"12.5\" font-weight=\"bold\">"

/-- Literal segment 6 of the `generateStatsCardSVG` format string
(lines 248-326): the text between the verbs for fields 5 and 6. -/
def svgSeg6 : String :=
"</text>
    </g>

    <!\x2d\x2d Total Contributions \x2d\x2d>
    <g transform=\"translate(300, 70)\">
      <svg y=\"-2\" viewBox=\"0 0 16 16\" version=\"1.1\" width=\"16\" height=\"16\">
        <path class=\"icon\" fill-rule=\"evenodd\" d=\"M1.75 0A1.75 1.75 0 000 1.75v12.5C0 15.216.784 16 1.75 16h12.5A1.75 1.75 0 0016 14.25V1.75A1.75 1.75 0 0014.25 0H1.75zM1.5 1.75a.25.25 0 01.25-.25h12.5a.25.25 0 01.25.25v12.5a.25.25 0 01-.25.25H1.75a.25.25 0 01-.25-.25V1.75zM11.75 3a.75.75 0 00-.75.75v7.5a.75.75 0 001.5 0v-7.5a.75.75 0 00-.75-.75zm-8.25.75a.75.75 0 011.5 0v5.5a.75.75 0 01-1.5 0v-5.5zM8 3a.75.75 0 00-.75.75v3.5a.75.75 0 001.5 0v-3.5A.75.75 0 008 3z\"/>
      </svg>
      <text class=\"stat\" x=\"25\" y=\"12.5\">Contributions (2025):</text>
      <text class=\"stat\" x=\"185\" y=\"12.5\" font-weight=\"bold\">"

/-- Literal segment 7 of the `generateStatsCardSVG` format string
(lines 248-326): the text after the last verb. -/
def svgSeg7 : String :=
"</text>
    </g>
  </g>
</svg>"

/-- `generateStatsCardSVG` (lines 247-334): `fmt.Sprintf` of the fixed
template, with the six fields formatted as decimal integers in source
order. -/
def generateStatsCardSVG (stats : StatsCard) : String :=
  svgSeg1 ++ toString stats.TotalStars ++ svgSeg2 ++ toString stats.TotalCommits
    ++ svgSeg3 ++ toString stats.TotalPRs ++ svgSeg4 ++ toString stats.TotalIssues
    ++ svgSeg5 ++ toString stats.ContributedTo ++ svgSeg6
    ++ toString stats.TotalContributions ++ svgSeg7

/-! ### Decompositions of the template segments

The following literals split the template segments at the points the claims
talk about (the bold text element before each field value, the closing
text tag after it, and the background rect tag); each split is validated
against the segment literal by `rfl`. -/

/-- The designated text position of field 1: the bold text element opening tag that immediately precedes the field value in segment 1. -/
def svgMarker1 : String :=
"<text class=\"stat\" x=\"135\" y=\"12.5\" font-weight=\"bold\">"

/-- Segment 1 of the template without its trailing `svgMarker1`. -/
def preSeg1 : String :=
"<svg width=\"600\" height=\"150\" viewBox=\"0 0 600 150\" fill=\"none\" xmlns=\"http://www.w3.org/2000/svg\" role=\"img\" aria-labelledby=\"descId\">
  <title id=\"titleId\">GitHub Stats Card</title>
  <desc id=\"descId\">GitHub statistics for user contributions</desc>

  <style>
    .header \x7b font: 600 18px \x27Segoe UI\x27, Ubuntu, Sans-Serif; fill: #2f80ed; \x7d
    .stat \x7b font: 600 14px \x27Segoe UI\x27, Ubuntu, Sans-Serif; fill: #434d58; \x7d
    .statlabel \x7b font: 400 12px \x27Segoe UI\x27, Ubuntu, Sans-Serif; fill: #586069; \x7d
    .icon \x7b fill: #586069; \x7d
    .card-bg \x7b fill: #fffefe; \x7d
    .card-border \x7b stroke: #e4e2e2; \x7d

    @media (prefers-color-scheme: dark) \x7b
      .stat \x7b fill: #e1e4e8; \x7d
      .statlabel \x7b fill: #8b949e; \x7d
      .icon \x7b fill: #8b949e; \x7d
      .card-bg \x7b fill: #0d1117; \x7d
      .card-border \x7b stroke: #30363d; \x7d
    \x7d
  </style>

  <rect class=\"card-bg\" x=\"0.5\" y=\"0.5\" rx=\"4.5\" height=\"99%\" width=\"599\" class=\"card-border\" stroke-width=\"1\" stroke-opacity=\"1\"/>

  <g transform=\"translate(25, 30)\">
    <!\x2d\x2d Total Stars \x2d\x2d>
    <g transform=\"translate(0, 0)\">
      <svg y=\"-2\" viewBox=\"0 0 16 16\" version=\"1.1\" width=\"16\" height=\"16\">
        <path fill=\"#FFD700\" fill-rule=\"evenodd\" d=\"M8 .25a.75.75 0 01.673.418l1.882 3.815 4.21.612a.75.75 0 01.416 1.279l-3.046 2.97.719 4.192a.75.75 0 01-1.088.791L8 12.347l-3.766 1.98a.75.75 0 01-1.088-.79l.72-4.194L.818 6.374a.75.75 0 01.416-1.28l4.21-.611L7.327.668A.75.75 0 018 .25z\"/>
      </svg>
      <text class=\"stat\" x=\"25\" y=\"12.5\">Total Stars:</text>
      "

/-- The designated text position of field 2: the bold text element opening tag that immediately precedes the field value in segment 2. -/
def svgMarker2 : String :=
"<text class=\"stat\" x=\"205\" y=\"12.5\" font-weight=\"bold\">"

/-- Segment 2 of the template without its trailing `svgMarker2`. -/
def preSeg2 : String :=
"</text>
    </g>

    <!\x2d\x2d Total Commits \x2d\x2d>
    <g transform=\"translate(0, 35)\">
      <svg y=\"-2\" viewBox=\"0 0 16 16\" version=\"1.1\" width=\"16\" height=\"16\">
        <path class=\"icon\" fill-rule=\"evenodd\" d=\"M1.643 3.143L.427 1.927A.25.25 0 000 2.104V5.75c0 .138.112.25.25.25h3.646a.25.25 0 00.177-.427L2.715 4.215a6.5 6.5 0 11-1.18 4.458.75.75 0 10-1.493.154 8.001 8.001 0 101.6-5.684zM7.75 4a.75.75 0 01.75.75v2.992l2.028.812a.75.75 0 01-.557 1.392l-2.5-1A.75.75 0 017 8.25v-3.5A.75.75 0 017.75 4z\"/>
      </svg>
      <text class=\"stat\" x=\"25\" y=\"12.5\">Total Commits (2025):</text>
      "

/-- The designated text position of field 3: the bold text element opening tag that immediately precedes the field value in segment 3. -/
def svgMarker3 : String :=
"<text class=\"stat\" x=\"110\" y=\"12.5\" font-weight=\"bold\">"

/-- Segment 3 of the template without its trailing `svgMarker3`. -/
def preSeg3 : String :=
"</text>
    </g>

    <!\x2d\x2d Total PRs \x2d\x2d>
    <g transform=\"translate(0, 70)\">
      <svg y=\"-2\" viewBox=\"0 0 16 16\" version=\"1.1\" width=\"16\" height=\"16\">
        <path class=\"icon\" fill-rule=\"evenodd\" d=\"M7.177 3.073L9.573.677A.25.25 0 0110 .854v4.792a.25.25 0 01-.427.177L7.177 3.427a.25.25 0 010-.354zM3.75 2.5a.75.75 0 100 1.5.75.75 0 000-1.5zm-2.25.75a2.25 2.25 0 113 2.122v5.256a2.251 2.251 0 11-1.5 0V5.372A2.25 2.25 0 011.5 3.25zM11 2.5h-1V4h1a1 1 0 011 1v5.628a2.251 2.251 0 101.5 0V5A2.5 2.5 0 0011 2.5zm1 10.25a.75.75 0 111.5 0 .75.75 0 01-1.5 0zM3.75 12a.75.75 0 100 1.5.75.75 0 000-1.5z\"/>
      </svg>
      <text class=\"stat\" x=\"25\" y=\"12.5\">Total PRs:</text>
      "

/-- The designated text position of field 4: the bold text element opening tag that immediately precedes the field value in segment 4. -/
def svgMarker4 : String :=
"<text class=\"stat\" x=\"125\" y=\"12.5\" font-weight=\"bold\">"

/-- Segment 4 of the template without its trailing `svgMarker4`. -/
def preSeg4 : String :=
"</text>
    </g>

    <!\x2d\x2d Total Issues \x2d\x2d>
    <g transform=\"translate(300, 0)\">
      <svg y=\"-2\" viewBox=\"0 0 16 16\" version=\"1.1\" width=\"16\" height=\"16\">
        <path class=\"icon\" fill-rule=\"evenodd\" d=\"M8 1.5a6.5 6.5 0 100 13 6.5 6.5 0 000-13zM0 8a8 8 0 1116 0A8 8 0 010 8zm9 3a1 1 0 11-2 0 1 1 0 012 0zm-.25-6.25a.75.75 0 00-1.5 0v3.5a.75.75 0 001.5 0v-3.5z\"/>
      </svg>
      <text class=\"stat\" x=\"25\" y=\"12.5\">Total Issues:</text>
      "

/-- The designated text position of field 5: the bold text element opening tag that immediately precedes the field value in segment 5. -/
def svgMarker5 : String :=
"<text class=\"stat\" x=\"150\" y=\"12.5\" font-weight=\"bold\">"

/-- Segment 5 of the template without its trailing `svgMarker5`. -/
def preSeg5 : String :=
"</text>
    </g>

    <!\x2d\x2d Contributed To \x2d\x2d>
    <g transform=\"translate(300, 35)\">
      <svg y=\"-2\" viewBox=\"0 0 16 16\" version=\"1.1\" width=\"16\" height=\"16\">
        <path class=\"icon\" fill-rule=\"evenodd\" d=\"M2 2.5A2.5 2.5 0 014.5 0h8.75a.75.75 0 01.75.75v12.5a.75.75 0 01-.75.75h-2.5a.75.75 0 110-1.5h1.75v-2h-8a1 1 0 00-.714 1.7.75.75 0 01-1.072 1.05A2.495 2.495 0 012 11.5v-9zm10.5-1V9h-8c-.356 0-.694.074-1 .208V2.5a1 1 0 011-1h8zM5 12.25v3.25a.25.25 0 00.4.2l1.45-1.087a.25.25 0 01.3 0L8.6 15.7a.25.25 0 00.4-.2v-3.25a.25.25 0 00-.25-.25h-3.5a.25.25 0 00-.25.25z\"/>
      </svg>
      <text class=\"stat\" x=\"25\" y=\"12.5\">Contributed to:</text>
      "

/-- The designated text position of field 6: the bold text element opening tag that immediately precedes the field value in segment 6. -/
def svgMarker6 : String :=
"<text class=\"stat\" x=\"185\" y=\"12.5\" font-weight=\"bold\">"

/-- Segment 6 of the template without its trailing `svgMarker6`. -/
def preSeg6 : String :=
"</text>
    </g>

    <!\x2d\x2d Total Contributions \x2d\x2d>
    <g transform=\"translate(300, 70)\">
      <svg y=\"-2\" viewBox=\"0 0 16 16\" version=\"1.1\" width=\"16\" height=\"16\">
        <path class=\"icon\" fill-rule=\"evenodd\" d=\"M1.75 0A1.75 1.75 0 000 1.75v12.5C0 15.216.784 16 1.75 16h12.5A1.75 1.75 0 0016 14.25V1.75A1.75 1.75 0 0014.25 0H1.75zM1.5 1.75a.25.25 0 01.25-.25h12.5a.25.25 0 01.25.25v12.5a.25.25 0 01-.25.25H1.75a.25.25 0 01-.25-.25V1.75zM11.75 3a.75.75 0 00-.75.75v7.5a.75.75 0 001.5 0v-7.5a.75.75 0 00-.75-.75zm-8.25.75a.75.75 0 011.5 0v5.5a.75.75 0 01-1.5 0v-5.5zM8 3a.75.75 0 00-.75.75v3.5a.75.75 0 001.5 0v-3.5A.75.75 0 008 3z\"/>
      </svg>
      <text class=\"stat\" x=\"25\" y=\"12.5\">Contributions (2025):</text>
      "

/-- Segment 2 of the template without its leading text-element closing tag. -/
def tailSeg2 : String :=
"
    </g>

    <!\x2d\x2d Total Commits \x2d\x2d>
    <g transform=\"translate(0, 35)\">
      <svg y=\"-2\" viewBox=\"0 0 16 16\" version=\"1.1\" width=\"16\" height=\"16\">
        <path class=\"icon\" fill-rule=\"evenodd\" d=\"M1.643 3.143L.427 1.927A.25.25 0 000 2.104V5.75c0 .138.112.25.25.25h3.646a.25.25 0 00.177-.427L2.715 4.215a6.5 6.5 0 11-1.18 4.458.75.75 0 10-1.493.154 8.001 8.001 0 101.6-5.684zM7.75 4a.75.75 0 01.75.75v2.992l2.028.812a.75.75 0 01-.557 1.392l-2.5-1A.75.75 0 017 8.25v-3.5A.75.75 0 017.75 4z\"/>
      </svg>
      <text class=\"stat\" x=\"25\" y=\"12.5\">Total Commits (2025):</text>
      <text class=\"stat\" x=\"205\" y=\"12.5\" font-weight=\"bold\">"

/-- Segment 3 of the template without its leading text-element closing tag. -/
def tailSeg3 : String :=
"
    </g>

    <!\x2d\x2d Total PRs \x2d\x2d>
    <g transform=\"translate(0, 70)\">
      <svg y=\"-2\" viewBox=\"0 0 16 16\" version=\"1.1\" width=\"16\" height=\"16\">
        <path class=\"icon\" fill-rule=\"evenodd\" d=\"M7.177 3.073L9.573.677A.25.25 0 0110 .854v4.792a.25.25 0 01-.427.177L7.177 3.427a.25.25 0 010-.354zM3.75 2.5a.75.75 0 100 1.5.75.75 0 000-1.5zm-2.25.75a2.25 2.25 0 113 2.122v5.256a2.251 2.251 0 11-1.5 0V5.372A2.25 2.25 0 011.5 3.25zM11 2.5h-1V4h1a1 1 0 011 1v5.628a2.251 2.251 0 101.5 0V5A2.5 2.5 0 0011 2.5zm1 10.25a.75.75 0 111.5 0 .75.75 0 01-1.5 0zM3.75 12a.75.75 0 100 1.5.75.75 0 000-1.5z\"/>
      </svg>
      <text class=\"stat\" x=\"25\" y=\"12.5\">Total PRs:</text>
      <text class=\"stat\" x=\"110\" y=\"12.5\" font-weight=\"bold\">"

/-- Segment 4 of the template without its leading text-element closing tag. -/
def tailSeg4 : String :=
"
    </g>

    <!\x2d\x2d Total Issues \x2d\x2d>
    <g transform=\"translate(300, 0)\">
      <svg y=\"-2\" viewBox=\"0 0 16 16\" version=\"1.1\" width=\"16\" height=\"16\">
        <path class=\"icon\" fill-rule=\"evenodd\" d=\"M8 1.5a6.5 6.5 0 100 13 6.5 6.5 0 000-13zM0 8a8 8 0 1116 0A8 8 0 010 8zm9 3a1 1 0 11-2 0 1 1 0 012 0zm-.25-6.25a.75.75 0 00-1.5 0v3.5a.75.75 0 001.5 0v-3.5z\"/>
      </svg>
      <text class=\"stat\" x=\"25\" y=\"12.5\">Total Issues:</text>
      <text class=\"stat\" x=\"125\" y=\"12.5\" font-weight=\"bold\">"

/-- Segment 5 of the template without its leading text-element closing tag. -/
def tailSeg5 : String :=
"
    </g>

    <!\x2d\x2d Contributed To \x2d\x2d>
    <g transform=\"translate(300, 35)\">
      <svg y=\"-2\" viewBox=\"0 0 16 16\" version=\"1.1\" width=\"16\" height=\"16\">
        <path class=\"icon\" fill-rule=\"evenodd\" d=\"M2 2.5A2.5 2.5 0 014.5 0h8.75a.75.75 0 01.75.75v12.5a.75.75 0 01-.75.75h-2.5a.75.75 0 110-1.5h1.75v-2h-8a1 1 0 00-.714 1.7.75.75 0 01-1.072 1.05A2.495 2.495 0 012 11.5v-9zm10.5-1V9h-8c-.356 0-.694.074-1 .208V2.5a1 1 0 011-1h8zM5 12.25v3.25a.25.25 0 00.4.2l1.45-1.087a.25.25 0 01.3 0L8.6 15.7a.25.25 0 00.4-.2v-3.25a.25.25 0 00-.25-.25h-3.5a.25.25 0 00-.25.25z\"/>
      </svg>
      <text class=\"stat\" x=\"25\" y=\"12.5\">Contributed to:</text>
      <text class=\"stat\" x=\"150\" y=\"12.5\" font-weight=\"bold\">"

/-- Segment 6 of the template without its leading text-element closing tag. -/
def tailSeg6 : String :=
"
    </g>

    <!\x2d\x2d Total Contributions \x2d\x2d>
    <g transform=\"translate(300, 70)\">
      <svg y=\"-2\" viewBox=\"0 0 16 16\" version=\"1.1\" width=\"16\" height=\"16\">
        <path class=\"icon\" fill-rule=\"evenodd\" d=\"M1.75 0A1.75 1.75 0 000 1.75v12.5C0 15.216.784 16 1.75 16h12.5A1.75 1.75 0 0016 14.25V1.75A1.75 1.75 0 0014.25 0H1.75zM1.5 1.75a.25.25 0 01.25-.25h12.5a.25.25 0 01.25.25v12.5a.25.25 0 01-.25.25H1.75a.25.25 0 01-.25-.25V1.75zM11.75 3a.75.75 0 00-.75.75v7.5a.75.75 0 001.5 0v-7.5a.75.75 0 00-.75-.75zm-8.25.75a.75.75 0 011.5 0v5.5a.75.75 0 01-1.5 0v-5.5zM8 3a.75.75 0 00-.75.75v3.5a.75.75 0 001.5 0v-3.5A.75.75 0 008 3z\"/>
      </svg>
      <text class=\"stat\" x=\"25\" y=\"12.5\">Contributions (2025):</text>
      <text class=\"stat\" x=\"185\" y=\"12.5\" font-weight=\"bold\">"

/-- Segment 7 of the template without its leading text-element closing tag. -/
def tailSeg7 : String :=
"
    </g>
  </g>
</svg>"

/-- Segment 1 of the template up to the background rect tag. -/
def rectPre : String :=
"<svg width=\"600\" height=\"150\" viewBox=\"0 0 600 150\" fill=\"none\" xmlns=\"http://www.w3.org/2000/svg\" role=\"img\" aria-labelledby=\"descId\">
  <title id=\"titleId\">GitHub Stats Card</title>
  <desc id=\"descId\">GitHub statistics for user contributions</desc>

  <style>
    .header \x7b font: 600 18px \x27Segoe UI\x27, Ubuntu, Sans-Serif; fill: #2f80ed; \x7d
    .stat \x7b font: 600 14px \x27Segoe UI\x27, Ubuntu, Sans-Serif; fill: #434d58; \x7d
    .statlabel \x7b font: 400 12px \x27Segoe UI\x27, Ubuntu, Sans-Serif; fill: #586069; \x7d
    .icon \x7b fill: #586069; \x7d
    .card-bg \x7b fill: #fffefe; \x7d
    .card-border \x7b stroke: #e4e2e2; \x7d

    @media (prefers-color-scheme: dark) \x7b
      .stat \x7b fill: #e1e4e8; \x7d
      .statlabel \x7b fill: #8b949e; \x7d
      .icon \x7b fill: #8b949e; \x7d
      .card-bg \x7b fill: #0d1117; \x7d
      .card-border \x7b stroke: #30363d; \x7d
    \x7d
  </style>

  "

/-- The background rect start-tag of the template (line 269), exactly as rendered. -/
def rectTag : String :=
"<rect class=\"card-bg\" x=\"0.5\" y=\"0.5\" rx=\"4.5\" height=\"99%\" width=\"599\" class=\"card-border\" stroke-width=\"1\" stroke-opacity=\"1\"/>"

/-- Segment 1 of the template after the background rect tag. -/
def rectPost : String :=
"

  <g transform=\"translate(25, 30)\">
    <!\x2d\x2d Total Stars \x2d\x2d>
    <g transform=\"translate(0, 0)\">
      <svg y=\"-2\" viewBox=\"0 0 16 16\" version=\"1.1\" width=\"16\" height=\"16\">
        <path fill=\"#FFD700\" fill-rule=\"evenodd\" d=\"M8 .25a.75.75 0 01.673.418l1.882 3.815 4.21.612a.75.75 0 01.416 1.279l-3.046 2.97.719 4.192a.75.75 0 01-1.088.791L8 12.347l-3.766 1.98a.75.75 0 01-1.088-.79l.72-4.194L.818 6.374a.75.75 0 01.416-1.28l4.21-.611L7.327.668A.75.75 0 018 .25z\"/>
      </svg>
      <text class=\"stat\" x=\"25\" y=\"12.5\">Total Stars:</text>
      <text class=\"stat\" x=\"135\" y=\"12.5\" font-weight=\"bold\">"

theorem svgSeg1_marker_split : svgSeg1 = preSeg1 ++ svgMarker1 := rfl

theorem svgSeg2_marker_split : svgSeg2 = preSeg2 ++ svgMarker2 := rfl

theorem svgSeg3_marker_split : svgSeg3 = preSeg3 ++ svgMarker3 := rfl

theorem svgSeg4_marker_split : svgSeg4 = preSeg4 ++ svgMarker4 := rfl

theorem svgSeg5_marker_split : svgSeg5 = preSeg5 ++ svgMarker5 := rfl

theorem svgSeg6_marker_split : svgSeg6 = preSeg6 ++ svgMarker6 := rfl

theorem svgSeg2_text_split : svgSeg2 = "</text>" ++ tailSeg2 := rfl

theorem svgSeg3_text_split : svgSeg3 = "</text>" ++ tailSeg3 := rfl

theorem svgSeg4_text_split : svgSeg4 = "</text>" ++ tailSeg4 := rfl

theorem svgSeg5_text_split : svgSeg5 = "</text>" ++ tailSeg5 := rfl

theorem svgSeg6_text_split : svgSeg6 = "</text>" ++ tailSeg6 := rfl

theorem svgSeg7_text_split : svgSeg7 = "</text>" ++ tailSeg7 := rfl

theorem svgSeg1_rect_split : svgSeg1 = rectPre ++ rectTag ++ rectPost := rfl

/-- Segment 7 of the template without its final closing svg tag. -/
def svgSeg7head : String := "</text>\n    </g>\n  </g>\n"

theorem svgSeg7_close_split : svgSeg7 = svgSeg7head ++ "</svg>" := rfl

/-! ## Delimitation of the rendered output -/

/-- Removal of trailing whitespace from a character list. -/
def trimTrailing (l : List Char) : List Char :=
  (l.reverse.dropWhile Char.isWhitespace).reverse

theorem trimTrailing_concat (l : List Char) (c : Char) (h : c.isWhitespace = false) :
    trimTrailing (l ++ [c]) = l ++ [c] := by
  simp [trimTrailing, List.dropWhile_cons, h]

/-- **C4.**  For every `StatsCard`, the rendered SVG begins with an opening
svg tag, and after trimming trailing whitespace it ends with the closing
svg tag (in fact it ends with the closing tag with no trailing whitespace
at all). -/
theorem generateStatsCardSVG_delimited (stats : StatsCard) :
    "<svg".data <+: (generateStatsCardSVG stats).data ∧
    "</svg>".data <:+ trimTrailing (generateStatsCardSVG stats).data := by
  constructor
  · have h1 : generateStatsCardSVG stats
        = svgSeg1 ++ (toString stats.TotalStars ++ (svgSeg2 ++ (toString stats.TotalCommits
          ++ (svgSeg3 ++ (toString stats.TotalPRs ++ (svgSeg4 ++ (toString stats.TotalIssues
          ++ (svgSeg5 ++ (toString stats.ContributedTo ++ (svgSeg6
          ++ (toString stats.TotalContributions ++ svgSeg7))))))))))) := by
      simp [generateStatsCardSVG, String.append_assoc]
    rw [h1, String.data_append]
    exact List.IsPrefix.trans (by decide) (List.prefix_append _ _)
  · have h2 : generateStatsCardSVG stats
        = (svgSeg1 ++ toString stats.TotalStars ++ svgSeg2 ++ toString stats.TotalCommits
          ++ svgSeg3 ++ toString stats.TotalPRs ++ svgSeg4 ++ toString stats.TotalIssues
          ++ svgSeg5 ++ toString stats.ContributedTo ++ svgSeg6
          ++ toString stats.TotalContributions ++ svgSeg7head) ++ "</svg>" := by
      simp [generateStatsCardSVG, svgSeg7_close_split, String.append_assoc]
    rw [h2, String.data_append]
    have h3 : ("</svg>" : String).data = "</svg".data ++ ['>'] := rfl
    rw [h3, ← List.append_assoc]
    rw [trimTrailing_concat _ '>' rfl]
    rw [List.append_assoc, ← h3]
    exact List.suffix_append _ _

/-! ## The six field positions and the duplicated rect attribute -/

/-- Split a character list at every occurrence of a separator character. -/
def splitOnChar (sep : Char) : List Char → List (List Char)
  | [] => [[]]
  | a :: rest =>
    match splitOnChar sep rest with
    | [] => [[]]
    | cur :: done => if a = sep then [] :: cur :: done else (a :: cur) :: done

/-- The attribute names of an XML start-tag whose attribute values contain
no spaces: the space-separated tokens after the tag name that carry an
equals sign, each truncated at its equals sign. -/
def tagAttrNames (tag : List Char) : List String :=
  ((splitOnChar ' ' tag).drop 1).filterMap fun tok =>
    if tok.contains '=' then some (String.mk (tok.takeWhile fun c => c != '=')) else none

theorem int_zero_toString : toString (0 : Int) = "0" := rfl

/-- **C3.**  Evaluation of the renderer at the all-zero card.  The decimal
representation `"0"` of each of the six fields does appear at its designated
text position (immediately inside the bold text element that the template
dedicates to that field); but the background rect start-tag of the output
carries the attribute name `class` twice, which violates XML's
unique-attribute well-formedness constraint, so the output is not a
syntactically well-formed SVG document. -/
theorem generateStatsCardSVG_zero_eval :
    (rectTag.data <:+: (generateStatsCardSVG zeroStatsCard).data
      ∧ (tagAttrNames rectTag.data).count "class" = 2)
    ∧ (svgMarker1 ++ "0" ++ "</text>").data <:+: (generateStatsCardSVG zeroStatsCard).data
    ∧ (svgMarker2 ++ "0" ++ "</text>").data <:+: (generateStatsCardSVG zeroStatsCard).data
    ∧ (svgMarker3 ++ "0" ++ "</text>").data <:+: (generateStatsCardSVG zeroStatsCard).data
    ∧ (svgMarker4 ++ "0" ++ "</text>").data <:+: (generateStatsCardSVG zeroStatsCard).data
    ∧ (svgMarker5 ++ "0" ++ "</text>").data <:+: (generateStatsCardSVG zeroStatsCard).data
    ∧ (svgMarker6 ++ "0" ++ "</text>").data <:+: (generateStatsCardSVG zeroStatsCard).data := by
  refine ⟨⟨⟨rectPre.data,
      (rectPost ++ "0" ++ svgSeg2 ++ "0" ++ svgSeg3 ++ "0" ++ svgSeg4 ++ "0"
        ++ svgSeg5 ++ "0" ++ svgSeg6 ++ "0" ++ svgSeg7).data, ?_⟩, by decide⟩,
    ⟨preSeg1.data,
      (tailSeg2 ++ "0" ++ svgSeg3 ++ "0" ++ svgSeg4 ++ "0" ++ svgSeg5 ++ "0"
        ++ svgSeg6 ++ "0" ++ svgSeg7).data, ?_⟩,
    ⟨(svgSeg1 ++ "0" ++ preSeg2).data,
      (tailSeg3 ++ "0" ++ svgSeg4 ++ "0" ++ svgSeg5 ++ "0" ++ svgSeg6 ++ "0"
        ++ svgSeg7).data, ?_⟩,
    ⟨(svgSeg1 ++ "0" ++ svgSeg2 ++ "0" ++ preSeg3).data,
      (tailSeg4 ++ "0" ++ svgSeg5 ++ "0" ++ svgSeg6 ++ "0" ++ svgSeg7).data, ?_⟩,
    ⟨(svgSeg1 ++ "0" ++ svgSeg2 ++ "0" ++ svgSeg3 ++ "0" ++ preSeg4).data,
      (tailSeg5 ++ "0" ++ svgSeg6 ++ "0" ++ svgSeg7).data, ?_⟩,
    ⟨(svgSeg1 ++ "0" ++ svgSeg2 ++ "0" ++ svgSeg3 ++ "0" ++ svgSeg4 ++ "0"
        ++ preSeg5).data,
      (tailSeg6 ++ "0" ++ svgSeg7).data, ?_⟩,
    ⟨(svgSeg1 ++ "0" ++ svgSeg2 ++ "0" ++ svgSeg3 ++ "0" ++ svgSeg4 ++ "0"
        ++ svgSeg5 ++ "0" ++ preSeg6).data,
      (tailSeg7).data, ?_⟩⟩
  · simp [generateStatsCardSVG, zeroStatsCard, int_zero_toString,
      svgSeg1_rect_split, String.data_append, String.append_assoc, List.append_assoc]
  · simp [generateStatsCardSVG, zeroStatsCard, int_zero_toString,
      svgSeg1_marker_split, svgSeg2_text_split, String.data_append,
      String.append_assoc, List.append_assoc]
  · simp [generateStatsCardSVG, zeroStatsCard, int_zero_toString,
      svgSeg2_marker_split, svgSeg3_text_split, String.data_append,
      String.append_assoc, List.append_assoc]
  · simp [generateStatsCardSVG, zeroStatsCard, int_zero_toString,
      svgSeg3_marker_split, svgSeg4_text_split, String.data_append,
      String.append_assoc, List.append_assoc]
  · simp [generateStatsCardSVG, zeroStatsCard, int_zero_toString,
      svgSeg4_marker_split, svgSeg5_text_split, String.data_append,
      String.append_assoc, List.append_assoc]
  · simp [generateStatsCardSVG, zeroStatsCard, int_zero_toString,
      svgSeg5_marker_split, svgSeg6_text_split, String.data_append,
      String.append_assoc, List.append_assoc]
  · simp [generateStatsCardSVG, zeroStatsCard, int_zero_toString,
      svgSeg6_marker_split, svgSeg7_text_split, String.data_append,
      String.append_assoc, List.append_assoc]

/-! ## Configuration loading -/

/-- The process environment as seen by `os.Getenv`: an unset variable reads
as the empty string. -/
def Env : Type := String → String

/-- `getEnv` (lines 116-121). -/
def getEnv (env : Env) (key defaultValue : String) : String :=
  if env key ≠ "" then env key else defaultValue

/-- `strconv.ParseBool`: exactly the tokens Go accepts. -/
def parseBool (s : String) : Option Bool :=
  if s = "1" ∨ s = "t" ∨ s = "T" ∨ s = "true" ∨ s = "TRUE" ∨ s = "True" then
    some true
  else if s = "0" ∨ s = "f" ∨ s = "F" ∨ s = "false" ∨ s = "FALSE" ∨ s = "False" then
    some false
  else none

/-- `getEnvBool` (lines 123-130). -/
def getEnvBool (env : Env) (key : String) (defaultValue : Bool) : Bool :=
  if env key ≠ "" then
    match parseBool (env key) with
    | some b => b
    | none => defaultValue
  else defaultValue

/-- `loadConfig` (lines 100-114).  The `log.Fatal` on a missing token is
modelled as the error case. -/
def loadConfig (env : Env) : Except String Config :=
  let config : Config :=
    { Username := getEnv env "GITHUB_USERNAME" defaultUsername
      Token := env "GITHUB_TOKEN"
      OutputDir := getEnv env "OUTPUT_DIR" defaultOutputDir
      OutputFile := getEnv env "OUTPUT_FILE" "stats-card.svg"
      Verbose := getEnvBool env "VERBOSE" false }
  if config.Token = "" then .error "GITHUB_TOKEN environment variable is required"
  else .ok config

/-! ## The retry loop

`fetchStatsWithRetry` (lines 139-162) wraps `fetchStats` in
`backoff.Retry(operation, backoff.NewExponentialBackOff())` with
`MaxElapsedTime` set to two minutes.  The model uses discrete time and
abstracts the (jittered) backoff intervals as an arbitrary sequence of
positive delays.  Two facts about `cenkalti/backoff/v4` are reflected here:

* `backoff.Retry` consults a cancellation context only when its second
  argument is built with `backoff.WithContext`; the code passes a plain
  `ExponentialBackOff`, so a backoff sleep always runs to completion and the
  cancellation signal is seen only by the next HTTP attempt itself, which
  then fails at once with a context-canceled transport error (the request of
  `fetchStats` carries `ctx`, line 192);
* `ExponentialBackOff.NextBackOff` returns `Stop` — making `Retry` give up
  and return the last operation error — exactly when the elapsed time plus
  the next interval would exceed `MaxElapsedTime`.
-/

/-- One orchestrated run: the outcome each attempt would have (were it not
cancelled), the backoff delay after each attempt, the total elapsed-time
budget (`MaxElapsedTime`), and the instant at which the external
cancellation signal fires, if any. -/
structure RetrySetup where
  atts : Nat → FetchInput
  delays : Nat → Nat
  budget : Nat
  cancelAt : Option Nat

/-- The transport error an attempt reports once the context is cancelled:
`client.Do` fails and `fetchStats` wraps the error (line 203). -/
def ctxCanceledMsg : String := "execute request: context canceled"

/-- The result of attempt `i` started at elapsed time `t`: a
context-canceled transport failure if the cancellation signal has fired,
otherwise whatever `fetchStats` makes of that attempt's response. -/
def attemptResult (s : RetrySetup) (i t : Nat) : Except FetchError StatsCard :=
  match s.cancelAt with
  | some tc => if tc ≤ t then .error (.transport ctxCanceledMsg) else fetchStats (s.atts i)
  | none => fetchStats (s.atts i)

/-- The retry loop from attempt `i` at elapsed time `t`: stop on success;
on failure stop with that error if sleeping again would overrun the budget,
else sleep out the (positive) backoff interval in full and try again.
Returns the result together with the elapsed time at which the loop
returns. -/
def retryFrom (s : RetrySetup) (i t : Nat) : Except FetchError StatsCard × Nat :=
  match attemptResult s i t with
  | .ok card => (.ok card, t)
  | .error e =>
    if _h : s.budget < t + max 1 (s.delays i) then (.error e, t)
    else retryFrom s (i + 1) (t + max 1 (s.delays i))
termination_by s.budget + 1 - t
decreasing_by
  have h1 : 1 ≤ max 1 (s.delays i) := le_max_left _ _
  omega

/-- `fetchStatsWithRetry` (lines 139-162): run the loop from the first
attempt at elapsed time zero.  (The Go wrapper re-labels the terminal error
with a `failed after retries:` prefix; the underlying error is returned
unchanged here.) -/
def fetchStatsWithRetry (s : RetrySetup) : Except FetchError StatsCard × Nat :=
  retryFrom s 0 0

/-! ## The pipeline around `main` -/

/-- Pipeline-level errors: a configuration error is a different kind from
every fetch error. -/
inductive PipelineError where
  | config (msg : String)
  | fetch (e : FetchError)
deriving DecidableEq, Repr

/-- The `main` control flow (lines 68-98) up to the rendered SVG string:
configuration is resolved first, and a failure there aborts the run before
any fetch attempt; otherwise the retry loop runs and the fetched card is
rendered.  (Writing the output file is outside the model.) -/
def runPipeline (env : Env) (s : RetrySetup) : Except PipelineError String :=
  match loadConfig env with
  | .error msg => .error (.config msg)
  | .ok _config =>
    match (fetchStatsWithRetry s).1 with
    | .error e => .error (.fetch e)
    | .ok card => .ok (generateStatsCardSVG card)

/-- An environment with only the auth token set. -/
def envTokenOnly : Env := fun key => if key = "GITHUB_TOKEN" then "tok" else ""

/-- A delivered 200-status response with remaining quota and an empty JSON
object body. -/
def okInput : FetchInput := .response 200 "1" "" "\x7b\x7d" (some (.obj []))

/-- A setup whose first attempt already succeeds. -/
def setupOkFirst : RetrySetup := ⟨fun _ => okInput, fun _ => 1, 120, none⟩

/-- **C6, counterexample.**  With the auth token present but the username
absent from the environment, the configuration is not rejected: `loadConfig`
falls back to the default username, and the pipeline goes on to fetch and
render. -/
theorem loadConfig_missing_username_accepted :
    loadConfig envTokenOnly
      = .ok ⟨defaultUsername, "tok", defaultOutputDir, "stats-card.svg", false⟩
    ∧ runPipeline envTokenOnly setupOkFirst = .ok (generateStatsCardSVG zeroStatsCard) := by
  constructor
  · rfl
  · have hfetch : fetchStats okInput = .ok zeroStatsCard := rfl
    have h1 : retryFrom setupOkFirst 0 0 = (.ok zeroStatsCard, 0) := by
      rw [retryFrom.eq_def]
      simp [attemptResult, setupOkFirst, hfetch]
    simp [runPipeline, fetchStatsWithRetry, h1, loadConfig, envTokenOnly, getEnv, getEnvBool]

/-- **C6, amended.**  If the auth token is absent, the pipeline rejects the
configuration with a configuration error — a kind distinct from every fetch
error — and does so whatever the fetch oracle would have answered, i.e.
before any network call matters. -/
theorem pipeline_missing_token_config_error :
    ∀ (env : Env) (s : RetrySetup),
      env "GITHUB_TOKEN" = "" →
      runPipeline env s
        = .error (.config "GITHUB_TOKEN environment variable is required") := by
  intro env s h
  simp [runPipeline, loadConfig, h]

/-- The empty environment. -/
def envEmpty : Env := fun _ => ""

/-- Witness for `pipeline_missing_token_config_error`. -/
theorem pipeline_missing_token_config_error_witness :
    runPipeline envEmpty setupOkFirst
      = .error (.config "GITHUB_TOKEN environment variable is required") :=
  pipeline_missing_token_config_error envEmpty setupOkFirst rfl

/-! ## Uniform retry across error kinds -/

/-- Outcome-shape alignment: the same success value, or failures of
arbitrary — possibly different — kinds. -/
def alignedB : Except FetchError StatsCard → Except FetchError StatsCard → Bool
  | .ok c, .ok c' => decide (c = c')
  | .error _, .error _ => true
  | _, _ => false

theorem attemptResult_aligned (a b : RetrySetup) (hc : a.cancelAt = b.cancelAt)
    (hj : ∀ j, alignedB (fetchStats (a.atts j)) (fetchStats (b.atts j)) = true)
    (i t : Nat) : alignedB (attemptResult a i t) (attemptResult b i t) = true := by
  unfold attemptResult
  rw [← hc]
  cases a.cancelAt with
  | none => exact hj i
  | some tc =>
    by_cases h : tc ≤ t
    · simp [h, alignedB]
    · simp [h]
      exact hj i

theorem retryFrom_unfold (s : RetrySetup) (i t : Nat) :
    retryFrom s i t =
      match attemptResult s i t with
      | .ok card => (.ok card, t)
      | .error e =>
        if s.budget < t + max 1 (s.delays i) then (.error e, t)
        else retryFrom s (i + 1) (t + max 1 (s.delays i)) := by
  rw [retryFrom.eq_def]
  cases attemptResult s i t with
  | ok card => rfl
  | error e =>
    by_cases hg : s.budget < t + max 1 (s.delays i)
    · simp [hg]
    · simp [hg]

theorem retryFrom_aligned (a b : RetrySetup)
    (hd : a.delays = b.delays) (hb : a.budget = b.budget) (hc : a.cancelAt = b.cancelAt)
    (hj : ∀ j, alignedB (fetchStats (a.atts j)) (fetchStats (b.atts j)) = true) :
    ∀ n i t, a.budget + 1 - t = n →
      (retryFrom a i t).2 = (retryFrom b i t).2 ∧
      alignedB (retryFrom a i t).1 (retryFrom b i t).1 = true := by
  intro n
  induction n using Nat.strong_induction_on with
  | _ n ih =>
    intro i t hn
    have hal := attemptResult_aligned a b hc hj i t
    rw [retryFrom_unfold a i t, retryFrom_unfold b i t]
    cases ha : attemptResult a i t with
    | ok c =>
      cases ha' : attemptResult b i t with
      | ok c' =>
        rw [ha, ha'] at hal
        simp [alignedB] at hal
        simp [hal, alignedB]
      | error e' =>
        rw [ha, ha'] at hal
        simp [alignedB] at hal
    | error e =>
      cases ha' : attemptResult b i t with
      | ok c' =>
        rw [ha, ha'] at hal
        simp [alignedB] at hal
      | error e' =>
        rw [← hd, ← hb]
        by_cases hg : a.budget < t + max 1 (a.delays i)
        · simp [hg, alignedB]
        · simp only [if_neg hg]
          have h1 : 1 ≤ max 1 (a.delays i) := le_max_left _ _
          exact ih (a.budget + 1 - (t + max 1 (a.delays i))) (by omega)
            (i + 1) (t + max 1 (a.delays i)) rfl

/-- **C7.**  The retry loop has no error-kind-specific behaviour: run two
setups with the same delays, budget and cancellation whose attempts succeed
identically and fail at the same positions — with error kinds allowed to
differ arbitrarily, e.g. a GraphQL-level failure against a transport
failure — and the loop finishes at the same elapsed time with
shape-aligned results. -/
theorem retry_uniform_across_error_kinds :
    ∀ (a b : RetrySetup),
      a.delays = b.delays → a.budget = b.budget → a.cancelAt = b.cancelAt →
      (∀ j, alignedB (fetchStats (a.atts j)) (fetchStats (b.atts j)) = true) →
      (fetchStatsWithRetry a).2 = (fetchStatsWithRetry b).2 ∧
      alignedB (fetchStatsWithRetry a).1 (fetchStatsWithRetry b).1 = true := by
  intro a b hd hb hc hj
  exact retryFrom_aligned a b hd hb hc hj (a.budget + 1) 0 0 rfl

/-- A delivered 200-status response whose body carries a non-empty top-level
error list. -/
def graphqlFailInput : FetchInput :=
  .response 200 "1" "" "\x7b\x22errors\x22:[\x7b\x22message\x22:\x22boom\x22\x7d]\x7d"
    (some (.obj [("errors", .arr [.obj [("message", .str "boom")]])]))

/-- A transport-level failure. -/
def transportFailInput : FetchInput := .transportFail "execute request: connection refused"

/-- A setup whose first attempt is a GraphQL-level failure and whose second
succeeds. -/
def setupGraphqlThenOk : RetrySetup :=
  ⟨fun j => if j = 0 then graphqlFailInput else okInput, fun _ => 1, 120, none⟩

/-- A setup whose first attempt is a transport failure and whose second
succeeds. -/
def setupTransportThenOk : RetrySetup :=
  ⟨fun j => if j = 0 then transportFailInput else okInput, fun _ => 1, 120, none⟩

/-- Witness for `retry_uniform_across_error_kinds`: a first-attempt GraphQL
failure is retried exactly like a first-attempt transport failure. -/
theorem retry_uniform_across_error_kinds_witness :
    (fetchStatsWithRetry setupGraphqlThenOk).2 = (fetchStatsWithRetry setupTransportThenOk).2 ∧
    alignedB (fetchStatsWithRetry setupGraphqlThenOk).1 (fetchStatsWithRetry setupTransportThenOk).1
      = true :=
  retry_uniform_across_error_kinds setupGraphqlThenOk setupTransportThenOk rfl rfl rfl
    (by
      intro j
      cases j with
      | zero => rfl
      | succ j => rfl)

/-! ## Cancellation during a backoff wait -/

theorem attemptResult_fails (s : RetrySetup)
    (hf : ∀ j, (fetchStats (s.atts j)).isOk = false) (i t : Nat) :
    (attemptResult s i t).isOk = false := by
  unfold attemptResult
  cases s.cancelAt with
  | none => exact hf i
  | some tc =>
    by_cases h : tc ≤ t
    · simp [h, Except.isOk, Except.toBool]
    · simp [h]
      exact hf i

theorem retryFrom_all_fail (s : RetrySetup) (D : Nat)
    (hf : ∀ j, (fetchStats (s.atts j)).isOk = false)
    (hD : ∀ j, s.delays j ≤ D) :
    ∀ n i t, s.budget + 1 - t = n →
      (retryFrom s i t).1.isOk = false ∧
      t ≤ (retryFrom s i t).2 ∧
      s.budget < (retryFrom s i t).2 + max 1 D ∧
      (∀ tc, s.cancelAt = some tc → tc ≤ (retryFrom s i t).2 →
        (retryFrom s i t).1 = .error (.transport ctxCanceledMsg)) := by
  intro n
  induction n using Nat.strong_induction_on with
  | _ n ih =>
    intro i t hn
    rw [retryFrom_unfold s i t]
    cases ha : attemptResult s i t with
    | ok c =>
      have hfa := attemptResult_fails s hf i t
      rw [ha] at hfa
      exact Bool.noConfusion hfa
    | error e =>
      by_cases hg : s.budget < t + max 1 (s.delays i)
      · simp only [if_pos hg]
        have hmax : max 1 (s.delays i) ≤ max 1 D :=
          max_le_max (le_refl 1) (hD i)
        refine ⟨rfl, le_refl t, by omega, ?_⟩
        intro tc hct hle
        unfold attemptResult at ha
        rw [hct] at ha
        simp [hle] at ha
        simp [ha]
      · simp only [if_neg hg]
        have h1 : 1 ≤ max 1 (s.delays i) := le_max_left _ _
        obtain ⟨q1, q2, q3, q4⟩ :=
          ih (s.budget + 1 - (t + max 1 (s.delays i))) (by omega)
            (i + 1) (t + max 1 (s.delays i)) rfl
        exact ⟨q1, le_trans (Nat.le_add_right t _) q2, q3, q4⟩

/-- **C5, amended.**  If the cancellation signal fires, the backoff waits
are nevertheless slept out in full: whenever every attempt fails (in
particular once cancellation makes every later attempt fail immediately),
the loop keeps retrying until the time budget is exhausted — it returns at
an elapsed time `T` with `budget < T + (largest possible backoff step)` —
and, if cancellation had fired by then, the terminal error is the
context-canceled transport failure, surfaced only at budget exhaustion
rather than promptly. -/
theorem retry_cancel_budget_exhaustion :
    ∀ (s : RetrySetup) (tc D : Nat),
      s.cancelAt = some tc →
      (∀ j, (fetchStats (s.atts j)).isOk = false) →
      (∀ j, s.delays j ≤ D) →
      (fetchStatsWithRetry s).1.isOk = false ∧
      s.budget < (fetchStatsWithRetry s).2 + max 1 D ∧
      (tc ≤ (fetchStatsWithRetry s).2 →
        (fetchStatsWithRetry s).1 = .error (.transport ctxCanceledMsg)) := by
  intro s tc D hc hf hD
  obtain ⟨q1, q2, q3, q4⟩ := retryFrom_all_fail s D hf hD (s.budget + 1) 0 0 rfl
  exact ⟨q1, q3, q4 tc hc⟩

/-- A setup whose attempts always draw an HTTP 500 response, with backoff
delays of 2 time units, a budget of 10 time units and cancellation firing
at time 1 — strictly inside the first backoff interval, which spans times
0 to 2. -/
def cancelSetup : RetrySetup :=
  ⟨fun _ => .response 500 "" "" "" none, fun _ => 2, 10, some 1⟩

/-- Witness for `retry_cancel_budget_exhaustion`, at `cancelSetup`. -/
theorem retry_cancel_budget_exhaustion_witness :
    (fetchStatsWithRetry cancelSetup).1.isOk = false ∧
    cancelSetup.budget < (fetchStatsWithRetry cancelSetup).2 + max 1 2 ∧
    (1 ≤ (fetchStatsWithRetry cancelSetup).2 →
      (fetchStatsWithRetry cancelSetup).1 = .error (.transport ctxCanceledMsg)) :=
  retry_cancel_budget_exhaustion cancelSetup 1 2 rfl (fun _ => rfl) (fun _ => le_refl 2)

/-- **C5, counterexample.**  With cancellation firing at time 1, during the
first backoff interval, the loop neither aborts that wait nor returns
promptly: it runs the full budget of 10 time units and only then returns
the context-canceled failure. -/
theorem retry_cancel_waits_full_budget :
    cancelSetup.cancelAt = some 1 ∧
    1 < max 1 (cancelSetup.delays 0) ∧
    fetchStatsWithRetry cancelSetup
      = (.error (.transport ctxCanceledMsg), cancelSetup.budget) := by
  refine ⟨rfl, by norm_num [cancelSetup], ?_⟩
  simp [fetchStatsWithRetry, retryFrom_unfold, attemptResult, cancelSetup,
    fetchStats, show (max 1 2 : Nat) = 2 from rfl]

end StatsCardGen
